import Mathlib

/-!
Shallow embedding of `src/software/node/autostep/autostep.js`: the Autostep
driver facade, its busy-poll loop, its streaming-session flag, the gear-ratio
scaling of positions, and the parameter getters and setters.  JavaScript
mappings are association lists of `JsValue`s; every device interaction is
parameterised by an oracle giving the reply each issued command receives, so
the embedding is pure and executable.
-/

/-- A JavaScript value as carried in command and reply mappings. -/
inductive JsValue where
  | undefined
  | null
  | boolean (b : Bool)
  | num (q : ℚ)
  | str (s : String)
  | obj (entries : List (String × JsValue))
  deriving Repr

/-- JavaScript truthiness of a value, as the guard `if (params[paramName])`
in `setParams` evaluates it (autostep.js line 299). -/
def truthy : JsValue → Bool
  | .undefined => false
  | .null => false
  | .boolean b => b
  | .num q => decide (q ≠ 0)
  | .str s => decide (s ≠ "")
  | .obj _ => true

/-- Property lookup `m[name]` on a JavaScript object: the first binding wins
and a missing key yields `undefined`. -/
def getField : List (String × JsValue) → String → JsValue
  | [], _ => .undefined
  | (k, v) :: rest, name => if k = name then v else getField rest name

/-- A parsed reply line: its `success` flag and the remaining fields. -/
structure Reply where
  success : Bool
  fields : List (String × JsValue)
  deriving Repr

/-- The reply to the `is_busy` status command, as `busyWait` reads it. -/
structure BusyReply where
  success : Bool
  is_busy : Bool
  deriving Repr

/-- The mutable state an `Autostep` object holds across calls (autostep.js
lines 21-26): the gear ratio and the streaming-session flag. -/
structure AutostepState where
  gearRatio : ℚ
  sinusoidRunning : Bool
  deriving Repr

/-- State right after the constructor runs (autostep.js lines 21-26):
`DEFAULT_GEAR_RATIO` is `1.0` and no sinusoid is running. -/
def autostepInit : AutostepState :=
  { gearRatio := 1, sinusoidRunning := false }

/-- The `setGearRatio` method (autostep.js lines 36-38): stores its argument
with no validation. -/
def setGearRatio (s : AutostepState) (g : ℚ) : AutostepState :=
  { s with gearRatio := g }

/-- The stream callback wrapper `sinusoid` installs (autostep.js lines 64-71):
on an error or an empty data mapping it clears `sinusoidRunning`; the user's
callback is then invoked either way, which changes no driver state. -/
def streamCallbackWrapped (s : AutostepState) (err : Bool)
    (data : List (String × JsValue)) : AutostepState :=
  if err || data.isEmpty then { s with sinusoidRunning := false } else s

/-- Where the serial device hands an inbound line. -/
inductive LineRoute where
  | streamSample
  | commandReply
  deriving Repr, DecidableEq

/-- Modelled from the spec: the serial device's per-line routing
(serialdevice.js is not among these sources).  While a streaming session is
active an inbound line is a stream sample; otherwise it is the pending
command's reply. -/
def routeLine (s : AutostepState) : LineRoute :=
  if s.sinusoidRunning then .streamSample else .commandReply

/-- One iteration of the `busyWait` polling loop (autostep.js lines 128-141),
taken after the tick delay.  The pair holds the loop's `done` flag after the
iteration and the number of `is_busy` commands the iteration issued.  The
nested `if (!this.sinusoidRunning)` test is kept exactly as the source writes
it, inside the branch where `sinusoidRunning` is already known true. -/
def busyWaitTick (sinusoidRunning : Bool) (rsp : BusyReply) : Bool × Nat :=
  if sinusoidRunning then
    if !sinusoidRunning then (true, 0) else (false, 0)
  else
    if rsp.success then (!rsp.is_busy, 1) else (true, 1)

/-- The `busyWait` loop run tick by tick: `sched t` is the value of
`sinusoidRunning` seen at tick `t` (the stream callback may clear it between
ticks), `oracle t` the reply an `is_busy` issued at tick `t` receives, and the
accumulator counts the `is_busy` commands issued so far.  The result is
`some (resolution tick, total is_busy commands)` when the loop finishes
within the given fuel. -/
def busyWaitLoop (sched : Nat → Bool) (oracle : Nat → BusyReply) :
    Nat → Nat → Nat → Option (Nat × Nat)
  | _, 0, _ => none
  | t, fuel + 1, cmds =>
    let step := busyWaitTick (sched t) (oracle t)
    if step.1 then some (t, cmds + step.2)
    else busyWaitLoop sched oracle (t + 1) fuel (cmds + step.2)

/-- The command `moveTo` sends (autostep.js lines 89-93): `move_to` with the
requested position multiplied by the gear ratio. -/
def moveTo (s : AutostepState) (position : ℚ) : String × ℚ :=
  ("move_to", position * s.gearRatio)

/-- The reply to `get_position`: `success` and the reported position. -/
structure PositionReply where
  success : Bool
  position : ℚ
  deriving Repr

/-- The `getPosition` method's reply adjustment (autostep.js lines 164-170):
a clone of the reply with the device's reported position divided by the gear
ratio. -/
def getPosition (s : AutostepState) (rsp : PositionReply) : PositionReply :=
  { rsp with position := rsp.position / s.gearRatio }

/-- The sinusoid command parameters as the caller passes them. -/
structure SinusoidParams where
  amplitude : ℚ
  period : ℚ
  phase : ℚ
  offset : ℚ
  num_cycle : ℚ
  deriving Repr

/-- The acknowledgement reply to the sinusoid command. -/
structure SinusoidReply where
  success : Bool
  amplitude : ℚ
  offset : ℚ
  deriving Repr

/-- Everything observable about one `sinusoid` call: the scaled parameters
sent, the state after the call, the adjusted reply returned, and the caller's
params object once the call is over. -/
structure SinusoidCall where
  sent : SinusoidParams
  state : AutostepState
  returned : SinusoidReply
  callerParams : SinusoidParams
  deriving Repr

/-- The `sinusoid` method (autostep.js lines 56-81): deep-clones `params` and
multiplies the clone's `amplitude` and `offset` by the gear ratio, sends the
command, sets `sinusoidRunning`, and once the acknowledgement `rsp` arrives
returns a clone of it with `amplitude` and `offset` divided by the gear
ratio; the caller's `params` object is untouched because only the clone is
scaled. -/
def sinusoid (s : AutostepState) (params : SinusoidParams)
    (rsp : SinusoidReply) : SinusoidCall :=
  let paramsAdj := { params with
    amplitude := params.amplitude * s.gearRatio,
    offset := params.offset * s.gearRatio }
  let s1 := { s with sinusoidRunning := true }
  let rspAdj := { rsp with
    amplitude := rsp.amplitude / s1.gearRatio,
    offset := rsp.offset / s1.gearRatio }
  { sent := paramsAdj, state := s1, returned := rspAdj, callerParams := params }

/-- The ordered keys of the `paramSetters` table in `setParams` (autostep.js
lines 286-293), in declaration order, which is the order the `for...in` loop
visits them. -/
def setParamsOrder : List String :=
  ["fullstepPerRev", "stepMode", "threshold", "jogMode", "maxMode", "kval"]

/-- The `for (let paramName in paramSetters)` loop of `setParams` (autostep.js
lines 295-306): walks the setter table in order; a parameter whose value in
`params` is truthy has its setter invoked (the reply given by `oracle`), any
other is skipped; the first reply with `success` false is returned at once
and ends the walk, and a completed walk returns a bare success.  The second
component lists the parameters whose setters were invoked, in order. -/
def setParamsGo (params : List (String × JsValue)) (oracle : String → Reply) :
    List String → Reply × List String
  | [] => ({ success := true, fields := [] }, [])
  | name :: rest =>
    if truthy (getField params name) then
      let rsp := oracle name
      if !rsp.success then (rsp, [name])
      else
        let r := setParamsGo params oracle rest
        (r.1, name :: r.2)
    else setParamsGo params oracle rest

/-- The `setParams` method over the fixed six-entry setter table. -/
def setParams (params : List (String × JsValue)) (oracle : String → Reply) :
    Reply × List String :=
  setParamsGo params oracle setParamsOrder

/-- The fixed sequence of getter commands `getParams` issues (autostep.js
lines 310-326), in source order. -/
def getParamsCmds : List String :=
  ["get_fullstep_per_rev", "get_step_mode", "get_oc_threshold",
   "get_jog_mode_params", "get_max_mode_params", "get_kval_params"]

/-- The `getParams` method (autostep.js lines 309-339): issues all six
getters one after the other with no condition on any reply (the replies given
by `oracle`, indexed by command name) and assembles the aggregate params
mapping; the three mode objects are the reply mappings with their `success`
key deleted, which `Reply.fields` already excludes.  The first component is
the trace of commands issued, the second the assembled mapping. -/
def getParams (oracle : String → Reply) :
    List String × List (String × JsValue) :=
  let fullstepPerRev := getField (oracle "get_fullstep_per_rev").fields "fullstep_per_rev"
  let stepMode := getField (oracle "get_step_mode").fields "step_mode"
  let threshold := getField (oracle "get_oc_threshold").fields "threshold"
  let jogModeParams := (oracle "get_jog_mode_params").fields
  let maxModeParams := (oracle "get_max_mode_params").fields
  let kvalParams := (oracle "get_kval_params").fields
  (getParamsCmds,
   [("fullstepPerRev", fullstepPerRev),
    ("stepMode", stepMode),
    ("threshold", threshold),
    ("jogMode", .obj jogModeParams),
    ("maxMode", .obj maxModeParams),
    ("kval", .obj kvalParams)])

/-- Failures the promise built by `_sendCmd` can reject with. -/
inductive SendError where
  | transport (msg : String)
  | malformed (msg : String)
  deriving Repr

/-- The reply handler inside `_sendCmd` (autostep.js lines 386-408): a device
error rejects the promise with it; otherwise the reply line is parsed, a
parse failure rejects with the thrown error (the `resolve(rspObj)` that still
runs afterwards is a no-op on the already-settled promise), and a parsed
object resolves the promise whatever its `success` field says.  `parsed` is
the outcome of `JSON.parse` on the line: `none` when it throws. -/
def sendCmdHandle (err : Option String) (parsed : Option Reply) :
    Except SendError Reply :=
  match err with
  | some e => .error (.transport e)
  | none =>
    match parsed with
    | none => .error (.malformed "JSON.parse failed")
    | some rspObj => .ok rspObj

/-- Modelled from the spec: the router's handling of a line while no stream is
active (serialdevice.js is not among these sources).  The line settles the
single pending waiter - delivered on a parse success, failed on a parse
failure - and the waiter slot is cleared either way, so the router accepts a
new send; while a streaming session is active the line is a sample and the
waiter slot is untouched.  The result is the pending flag after the line and
what the waiter received, if it was settled. -/
def routerOnLine (streaming : Bool) (pending : Bool) (parsed : Option Reply) :
    Bool × Option (Except SendError Reply) :=
  if streaming then (pending, none)
  else
    match parsed with
    | none => (false, some (.error (.malformed "JSON.parse failed")))
    | some rsp => (false, some (.ok rsp))

/-- How the promise built inside `autosetPositionProcedure` ends up. -/
inductive PromiseOutcome where
  | rejected (msg : String)
  | pending
  deriving Repr, DecidableEq

/-- Settling of the promise `autosetPositionProcedure` constructs
(autostep.js lines 204-221), given the `success` flags of its three command
replies.  A promise settles with its first `reject` call - the executor keeps
running after a `reject`, but later calls change nothing - and this executor
never calls `resolve`, so when all three replies succeed the promise stays
pending forever. -/
def autosetExecutorOutcome (r1 r2 r3 : Bool) : PromiseOutcome :=
  if !r1 then .rejected "autoset: set position failed"
  else if !r2 then .rejected "autoset: move to start position failed"
  else if !r3 then .rejected "autoset: set position failed"
  else .pending

/-- The value `autosetPositionProcedure` returns to its caller (autostep.js
lines 203-222): the method body builds the promise but has no `return`
statement, so the promise is dropped and the caller gets `undefined`. -/
def autosetPositionProcedure (r1 r2 r3 : Bool) : Option PromiseOutcome :=
  let _promise := autosetExecutorOutcome r1 r2 r3
  none

/-- Helper: a tick taken while the streaming flag is up neither finishes the
loop nor issues a command, so the loop just moves to the next tick. -/
theorem busyWaitLoop_active_step (sched : Nat → Bool) (oracle : Nat → BusyReply)
    (t fuel cmds : Nat) (h : sched t = true) :
    busyWaitLoop sched oracle t (fuel + 1) cmds =
      busyWaitLoop sched oracle (t + 1) fuel cmds := by
  simp [busyWaitLoop, busyWaitTick, h]

/-- Helper: with the streaming flag active on ticks `0..K-1` and down from
tick `K` on, a reply at tick `K` reporting a successful not-busy query makes
the loop resolve at tick `K` having issued exactly one more command. -/
theorem busyWaitLoop_deactivation (K : Nat) (oracle : Nat → BusyReply)
    (h1 : (oracle K).success = true) (h2 : (oracle K).is_busy = false) :
    ∀ fuel t cmds, t + fuel = K →
      busyWaitLoop (fun i => decide (i < K)) oracle t (fuel + 1) cmds =
        some (K, cmds + 1) := by
  intro fuel
  induction fuel with
  | zero =>
    intro t cmds ht
    have ht' : t = K := by omega
    subst ht'
    simp [busyWaitLoop, busyWaitTick, h1, h2]
  | succ n ih =>
    intro t cmds ht
    have hlt : t < K := by omega
    rw [busyWaitLoop_active_step _ _ _ _ _ (by simp [hlt])]
    exact ih (t + 1) cmds (by omega)

/-- C1 counterexample: run the `busyWait` loop with the streaming session
active at tick 0 only (the stream terminates before tick 1) and an always
successful not-busy status oracle.  The loop resolves at tick 1 having issued
one `is_busy` command - command traffic after deactivation - where the claim
demands resolution at deactivation with none: the `done = true` branch under
`if (this.sinusoidRunning)` is unreachable, so only the polling branch can
finish the loop. -/
theorem busyWait_post_deactivation_traffic :
    busyWaitLoop (fun t => decide (t = 0))
      (fun _ => { success := true, is_busy := false }) 0 10 0 = some (1, 1) ∧
    (1 : Nat) ≠ 0 :=
  ⟨rfl, by decide⟩

/-- C1 (amended): while the streaming session is active no poll tick issues an
`is_busy` command, and none resolves the wait either - the inner `done = true`
branch is unreachable; once the session deactivates, `is_busy` polling
resumes, and when the reply at the first inactive tick reports a successful
not-busy query the wait resolves at that tick, after exactly one `is_busy`
command issued past deactivation. -/
theorem busyWait_streaming_resolution (K : Nat) (oracle : Nat → BusyReply)
    (h1 : (oracle K).success = true) (h2 : (oracle K).is_busy = false) :
    (∀ rsp, busyWaitTick true rsp = (false, 0)) ∧
    busyWaitLoop (fun i => decide (i < K)) oracle 0 (K + 1) 0 = some (K, 1) := by
  constructor
  · intro rsp
    simp [busyWaitTick]
  · exact busyWaitLoop_deactivation K oracle h1 h2 K 0 0 (by omega)

/-- Witness for C1 (amended) at `K = 1` with a constant good oracle. -/
theorem busyWait_streaming_resolution_witness :
    ({ success := true, is_busy := false } : BusyReply).success = true ∧
    busyWaitLoop (fun i => decide (i < 1))
      (fun _ => { success := true, is_busy := false }) 0 2 0 = some (1, 1) :=
  ⟨rfl, (busyWait_streaming_resolution 1
    (fun _ => { success := true, is_busy := false }) rfl rfl).2⟩

/-- C2: a stream sample that is empty or carries an error deactivates the
streaming session, so the next inbound line is routed as an ordinary command
reply; the flag never stays true past a terminating sample. -/
theorem stream_terminating_sample_deactivates (s : AutostepState) (err : Bool)
    (data : List (String × JsValue)) (h : err = true ∨ data = []) :
    (streamCallbackWrapped s err data).sinusoidRunning = false ∧
    routeLine (streamCallbackWrapped s err data) = .commandReply := by
  have hc : (err || data.isEmpty) = true := by
    rcases h with h | h <;> simp [h]
  constructor <;> simp [streamCallbackWrapped, routeLine, hc]

/-- Witness for C2: an empty sample arriving while the session is active. -/
theorem stream_terminating_sample_deactivates_witness :
    ((false : Bool) = true ∨ ([] : List (String × JsValue)) = []) ∧
    ((streamCallbackWrapped { gearRatio := 1, sinusoidRunning := true } false
        []).sinusoidRunning = false ∧
      routeLine (streamCallbackWrapped { gearRatio := 1, sinusoidRunning := true }
        false []) = .commandReply) :=
  ⟨Or.inr rfl, stream_terminating_sample_deactivates
    { gearRatio := 1, sinusoidRunning := true } false [] (Or.inr rfl)⟩

/-- C4: with no streaming session active, every busy-poll tick issues exactly
one `is_busy` command; a reply whose `success` is false ends the wait at once
(no error is raised - the loop just finishes), and otherwise the wait ends
exactly when the reply's busy flag is false. -/
theorem busyWait_poll_step (rsp : BusyReply) :
    (busyWaitTick false rsp).2 = 1 ∧
    (rsp.success = false → (busyWaitTick false rsp).1 = true) ∧
    (rsp.success = true →
      ((busyWaitTick false rsp).1 = true ↔ rsp.is_busy = false)) := by
  obtain ⟨s, b⟩ := rsp
  cases s <;> cases b <;> simp [busyWaitTick]

/-- Witness for C4: a failed query finishes the wait, and a successful
not-busy reply finishes it too. -/
theorem busyWait_poll_step_witness :
    (busyWaitTick false { success := false, is_busy := true }).1 = true ∧
    ((busyWaitTick false { success := true, is_busy := false }).1 = true ↔
      ({ success := true, is_busy := false } : BusyReply).is_busy = false) :=
  ⟨(busyWait_poll_step { success := false, is_busy := true }).2.1 rfl,
   (busyWait_poll_step { success := true, is_busy := false }).2.2 rfl⟩

/-- C5: with a non-zero gear ratio `g` (in particular any `g` other than 1),
`moveTo x` sends the device the `move_to` command with position `x * g`, and
a `getPosition` whose device reply carries position `x * g` returns exactly
`x` - the multiply-then-divide round trip is the identity. -/
theorem moveTo_getPosition_roundtrip (s : AutostepState) (x : ℚ)
    (hg0 : s.gearRatio ≠ 0) (hg1 : s.gearRatio ≠ 1) :
    moveTo s x = ("move_to", x * s.gearRatio) ∧
    (getPosition s { success := true, position := x * s.gearRatio }).position
      = x := by
  refine ⟨rfl, ?_⟩
  simp [getPosition, mul_div_cancel_right₀ _ hg0]

/-- Witness for C5 at gear ratio 2 and position 3. -/
theorem moveTo_getPosition_roundtrip_witness :
    ({ gearRatio := 2, sinusoidRunning := false } : AutostepState).gearRatio ≠ 0 ∧
    ({ gearRatio := 2, sinusoidRunning := false } : AutostepState).gearRatio ≠ 1 ∧
    (getPosition { gearRatio := 2, sinusoidRunning := false }
      { success := true,
        position := 3 * ({ gearRatio := 2, sinusoidRunning := false } :
          AutostepState).gearRatio }).position = 3 :=
  ⟨by norm_num, by norm_num,
   (moveTo_getPosition_roundtrip { gearRatio := 2, sinusoidRunning := false } 3
     (by norm_num) (by norm_num)).2⟩

/-- C6: `sinusoid` sends the command with amplitude and offset each multiplied
by the gear ratio (the other parameters unscaled), marks the streaming
session active, returns the acknowledgement with its amplitude and offset
each divided by the gear ratio (its success flag kept), and hands the caller
back an unmodified params mapping, since only the clone was scaled. -/
theorem sinusoid_scales_and_activates (s : AutostepState)
    (params : SinusoidParams) (rsp : SinusoidReply) :
    (sinusoid s params rsp).sent.amplitude = params.amplitude * s.gearRatio ∧
    (sinusoid s params rsp).sent.offset = params.offset * s.gearRatio ∧
    (sinusoid s params rsp).sent.period = params.period ∧
    (sinusoid s params rsp).sent.phase = params.phase ∧
    (sinusoid s params rsp).sent.num_cycle = params.num_cycle ∧
    (sinusoid s params rsp).state.sinusoidRunning = true ∧
    (sinusoid s params rsp).returned.amplitude = rsp.amplitude / s.gearRatio ∧
    (sinusoid s params rsp).returned.offset = rsp.offset / s.gearRatio ∧
    (sinusoid s params rsp).returned.success = rsp.success ∧
    (sinusoid s params rsp).callerParams = params :=
  ⟨rfl, rfl, rfl, rfl, rfl, rfl, rfl, rfl, rfl, rfl⟩

/-- C7: a reply line that fails to parse rejects the pending wait with the
parse failure, and the router's waiter slot is cleared so a new send is
accepted; a well-formed reply whose `success` is false is delivered as a
normal resolution, not a rejection. -/
theorem malformed_reply_rejects (rsp : Reply) (hfail : rsp.success = false) :
    sendCmdHandle none none =
      Except.error (SendError.malformed "JSON.parse failed") ∧
    sendCmdHandle none (some rsp) = Except.ok rsp ∧
    routerOnLine false true none =
      (false, some (Except.error (SendError.malformed "JSON.parse failed"))) ∧
    routerOnLine false true (some rsp) = (false, some (Except.ok rsp)) :=
  ⟨rfl, rfl, rfl, rfl⟩

/-- Witness for C7 with a concrete failing reply. -/
theorem malformed_reply_rejects_witness :
    ({ success := false, fields := [] } : Reply).success = false ∧
    sendCmdHandle none (some { success := false, fields := [] }) =
      Except.ok { success := false, fields := [] } :=
  ⟨rfl, (malformed_reply_rejects { success := false, fields := [] } rfl).2.1⟩

/-- C8: `getParams` issues all six getters, in the fixed source order, for
every reply oracle - replies with `success` false included, since no reply is
ever inspected for success - and the assembled mapping carries exactly the
six keys in order. -/
theorem getParams_total_read (oracle : String → Reply) :
    (getParams oracle).1 = ["get_fullstep_per_rev", "get_step_mode",
      "get_oc_threshold", "get_jog_mode_params", "get_max_mode_params",
      "get_kval_params"] ∧
    (getParams oracle).2.map Prod.fst = ["fullstepPerRev", "stepMode",
      "threshold", "jogMode", "maxMode", "kval"] :=
  ⟨rfl, rfl⟩

/-- C9 counterexample: `setGearRatio` stores its argument unchecked, so
calling it with 0 on a freshly constructed object leaves a zero gear ratio:
the non-zero invariant is not preserved by every operation. -/
theorem setGearRatio_zero_breaks_invariant :
    autostepInit.gearRatio ≠ 0 ∧
    (setGearRatio autostepInit 0).gearRatio = 0 :=
  ⟨by simp [autostepInit], rfl⟩

/-- C9 (amended): the gear ratio is 1.0 - non-zero - when the object is
constructed; the stream callback and `sinusoid` leave it unchanged, and
`setGearRatio` stores exactly its argument with no validation, so the
non-zero invariant holds precisely when every value the caller passes to
`setGearRatio` is itself non-zero. -/
theorem gearRatio_default_and_updates (s : AutostepState) (g : ℚ) (err : Bool)
    (data : List (String × JsValue)) (params : SinusoidParams)
    (rsp : SinusoidReply) (hg : g ≠ 0) :
    autostepInit.gearRatio = 1 ∧
    (setGearRatio s g).gearRatio = g ∧
    (setGearRatio s g).gearRatio ≠ 0 ∧
    (streamCallbackWrapped s err data).gearRatio = s.gearRatio ∧
    (sinusoid s params rsp).state.gearRatio = s.gearRatio := by
  refine ⟨rfl, rfl, hg, ?_, rfl⟩
  unfold streamCallbackWrapped
  split <;> rfl

/-- Witness for C9 (amended): setting the ratio to 2 keeps it non-zero. -/
theorem gearRatio_default_and_updates_witness :
    (2 : ℚ) ≠ 0 ∧ (setGearRatio autostepInit 2).gearRatio ≠ 0 :=
  ⟨by norm_num,
   (gearRatio_default_and_updates autostepInit 2 false []
     { amplitude := 0, period := 0, phase := 0, offset := 0, num_cycle := 0 }
     { success := true, amplitude := 0, offset := 0 } (by norm_num)).2.2.1⟩

/-- C10: `autosetPositionProcedure` has no return statement, so its caller
always gets `undefined` and never the internally built promise; when all
three steps succeed the executor finishes without calling resolve, so that
promise stays pending forever, and on a failing step its rejection is
unobservable from the return value. -/
theorem autosetPositionProcedure_returns_undefined (r1 r2 r3 : Bool) :
    autosetPositionProcedure r1 r2 r3 = none ∧
    (r1 = true → r2 = true → r3 = true →
      autosetExecutorOutcome r1 r2 r3 = .pending) ∧
    (r1 = false →
      autosetExecutorOutcome r1 r2 r3 =
        .rejected "autoset: set position failed") := by
  refine ⟨rfl, ?_, ?_⟩ <;>
    cases r1 <;> cases r2 <;> cases r3 <;> simp [autosetExecutorOutcome]

/-- Witness for C10: all three steps succeed, the caller still gets
`undefined` and the promise stays pending. -/
theorem autosetPositionProcedure_returns_undefined_witness :
    autosetPositionProcedure true true true = none ∧
    autosetExecutorOutcome true true true = .pending :=
  ⟨(autosetPositionProcedure_returns_undefined true true true).1,
   (autosetPositionProcedure_returns_undefined true true true).2.1 rfl rfl rfl⟩

/-- Helper: full characterisation of the `setParams` loop over any setter
table.  The parameters actually applied are the truthy-valued ones in table
order; the walk stops at the first applied setter whose reply fails and
returns that reply, and a walk with no failing applied setter returns a bare
success. -/
theorem setParamsGo_spec (params : List (String × JsValue))
    (oracle : String → Reply) (names : List String) :
    setParamsGo params oracle names =
      match (names.filter fun n => truthy (getField params n)).find?
          (fun n => !(oracle n).success) with
      | some f => (oracle f,
          ((names.filter fun n => truthy (getField params n)).takeWhile
            fun n => (oracle n).success) ++ [f])
      | none => ({ success := true, fields := [] },
          names.filter fun n => truthy (getField params n)) := by
  induction names with
  | nil => rfl
  | cons name rest ih =>
    cases ht : truthy (getField params name) with
    | false =>
      rw [show (name :: rest).filter (fun n => truthy (getField params n)) =
        rest.filter (fun n => truthy (getField params n)) by
          simp [List.filter_cons, ht]]
      simpa [setParamsGo, ht] using ih
    | true =>
      rw [show (name :: rest).filter (fun n => truthy (getField params n)) =
        name :: rest.filter (fun n => truthy (getField params n)) by
          simp [List.filter_cons, ht]]
      cases hs : (oracle name).success with
      | false =>
        rw [List.find?_cons_of_pos _ (by simp [hs])]
        simp [setParamsGo, ht, hs, List.takeWhile_cons, hs]
      | true =>
        rw [List.find?_cons_of_neg _ (by simp [hs])]
        have hgo : setParamsGo params oracle (name :: rest) =
            ((setParamsGo params oracle rest).1,
              name :: (setParamsGo params oracle rest).2) := by
          simp [setParamsGo, ht, hs]
        rw [hgo, ih]
        cases hfind : (rest.filter fun n => truthy (getField params n)).find?
            (fun n => !(oracle n).success) with
        | none => simp [List.takeWhile_cons, hs]
        | some f => simp [List.takeWhile_cons, hs]

/-- C3 counterexample: `fullstepPerRev` is present in `params` with the value
`0`, yet `setParams` never invokes its setter - the guard
`if (params[paramName])` tests JavaScript truthiness, not presence - so the
claim that exactly the present fields have their setter applied fails. -/
theorem setParams_skips_present_falsy_field :
    getField [("fullstepPerRev", JsValue.num 0)] "fullstepPerRev" ≠
      JsValue.undefined ∧
    (setParams [("fullstepPerRev", JsValue.num 0)]
      (fun _ => { success := true, fields := [] })).2 = [] := by
  constructor
  · simp [getField]
  · rfl

/-- C3 (amended): `setParams` walks the six-entry setter table in its declared
order and invokes the setter of exactly those parameters whose value in
`params` is truthy - an absent field reads as `undefined`, hence falsy and
skipped, but a present falsy value (0, empty string, false, null) is skipped
just the same; the walk stops at the first applied setter whose reply has
`success` false and returns that reply with no later setter invoked, and when
no applied setter fails every truthy field is applied and the result is a
bare success mapping. -/
theorem setParams_truthy_shortcircuit (params : List (String × JsValue))
    (oracle : String → Reply) :
    setParams params oracle =
      match (setParamsOrder.filter fun n => truthy (getField params n)).find?
          (fun n => !(oracle n).success) with
      | some f => (oracle f,
          ((setParamsOrder.filter fun n => truthy (getField params n)).takeWhile
            fun n => (oracle n).success) ++ [f])
      | none => ({ success := true, fields := [] },
          setParamsOrder.filter fun n => truthy (getField params n)) :=
  setParamsGo_spec params oracle setParamsOrder
